import Mathlib

/-!
Shallow embedding of the realtime-notify server (src/server.js and the
demo-mode variant embedded in src/SETUP.md, lines 166-509).

The server keeps a JS `Map` `clients` from client id to an SSE response
object (the sink).  We model the registry as an association list with the
JS-Map discipline (unique keys; `set` replaces in place, `delete` removes
the entry).  A sink is summarized by whether `res.write` succeeds
(`writeOk`); a throwing write is the only failure mode the code handles.

JS-specific conventions mirrored here:
- a possibly-`undefined` string field is `Option String`;
- `x || d` on a string is `jsOr` (both `undefined` and `""` are falsy);
- a destructuring default `type = 'info'` fires only on `undefined`
  (`Option.getD`), not on `""`;
- `JSON.parse` results are projected to the fields the code reads
  (`title`, `message`, `type`), with `none` standing for a parse throw.
-/

abbrev ClientId := String

structure Sink where
  writeOk : Bool
  deriving Repr, DecidableEq

abbrev Registry := List (ClientId × Sink)

/-- `clients.set k v`: replace the entry in place when the key exists
(JS Map keeps insertion position), append otherwise. -/
def mapSet (m : Registry) (k : ClientId) (v : Sink) : Registry :=
  if m.any (fun p => p.1 == k) then
    m.map (fun p => if p.1 == k then (k, v) else p)
  else
    m ++ [(k, v)]

/-- `clients.delete k`: remove the entry for `k` (no-op when absent). -/
def mapDelete (m : Registry) (k : ClientId) : Registry :=
  m.filter (fun p => !(p.1 == k))

/-- `x || d` on a JS string value: `undefined` and `""` are falsy. -/
def jsOr (v : Option String) (d : String) : String :=
  match v with
  | none => d
  | some s => if s = "" then d else s

/-- `!x` on a JS string value. -/
def jsFalsy (v : Option String) : Bool :=
  match v with
  | none => true
  | some s => s == ""

/-- The `data` object inside a `type: 'notification'` frame.
`message` is copied verbatim from the payload by the pub/sub adapters and
may therefore be `undefined` (`none`). -/
structure NotificationData where
  id : String
  title : String
  message : Option String
  notificationType : String
  timestamp : String
  source : String
  deriving Repr, DecidableEq

/-- A frame written to an SSE sink: the object serialized into
`data: <JSON>\n\n`.  The server writes exactly two shapes. -/
inductive Frame where
  | connected (clientId : String) (message : String)
      (pubsubEnabled : Bool) (demoMode : Bool)
  | notif (data : NotificationData)
  deriving Repr, DecidableEq

/-- `true` exactly when the frame is a `notification` frame whose
`message` (the body) is present and non-empty. -/
def hasNonEmptyBody (f : Frame) : Bool :=
  match f with
  | .connected _ _ _ _ => true
  | .notif d =>
    match d.message with
    | none => false
    | some s => !(s == "")

/-- The `message` field (the body) of a notification frame. -/
def frameBody (f : Frame) : Option String :=
  match f with
  | .connected _ _ _ _ => none
  | .notif d => d.message

/-- Result of one `broadcastToClients` call.  `writes` records the
successful sink writes in iteration order, `attempted` records every
client id the `forEach` callback ran for, and `retval` is the JS return
value of the function (it has no `return` statement, hence `undefined`,
modelled as `none`). -/
structure BroadcastResult where
  registry : Registry
  sentCount : Nat
  writes : List (ClientId × Frame)
  attempted : List ClientId
  retval : Option Nat
  deriving Repr, DecidableEq

/-- The `clients.forEach` loop of `broadcastToClients`.  `snap` is the
sequence of entries the iteration visits (the entries present when the
call started: the loop body only ever deletes the entry it is currently
visiting, which does not affect which later entries a JS `Map.forEach`
visits); `reg` is the live map being mutated by `clients.delete`. -/
def broadcastLoop (snap : List (ClientId × Sink)) (reg : Registry)
    (env : Frame) (cnt : Nat) (ws : List (ClientId × Frame))
    (att : List ClientId) : BroadcastResult :=
  match snap with
  | [] => ⟨reg, cnt, ws, att, none⟩
  | p :: rest =>
    if p.2.writeOk then
      broadcastLoop rest reg env (cnt + 1) (ws ++ [(p.1, env)]) (att ++ [p.1])
    else
      broadcastLoop rest (mapDelete reg p.1) env cnt ws (att ++ [p.1])

/-- `broadcastToClients(notification)` (SETUP.md lines 275-287): iterate
over all clients, `try { client.write(...); sentCount++ } catch {
clients.delete(clientId) }`; logs `sentCount`; no return statement. -/
def broadcastToClients (reg : Registry) (env : Frame) : BroadcastResult :=
  broadcastLoop reg reg env 0 [] []

theorem broadcastLoop_attempted (snap : List (ClientId × Sink))
    (reg : Registry) (env : Frame) (cnt : Nat)
    (ws : List (ClientId × Frame)) (att : List ClientId) :
    (broadcastLoop snap reg env cnt ws att).attempted
      = att ++ snap.map Prod.fst := by
  induction snap generalizing reg cnt ws att with
  | nil => simp [broadcastLoop]
  | cons p rest ih =>
    by_cases h : p.2.writeOk = true
    · simp [broadcastLoop, h, ih]
    · simp only [Bool.not_eq_true] at h
      simp [broadcastLoop, h, ih]

theorem broadcastLoop_sentCount (snap : List (ClientId × Sink))
    (reg : Registry) (env : Frame) (cnt : Nat)
    (ws : List (ClientId × Frame)) (att : List ClientId) :
    (broadcastLoop snap reg env cnt ws att).sentCount
      = cnt + (snap.filter (fun p => p.2.writeOk)).length := by
  induction snap generalizing reg cnt ws att with
  | nil => simp [broadcastLoop]
  | cons p rest ih =>
    by_cases h : p.2.writeOk = true
    · simp [broadcastLoop, h, ih]; omega
    · simp only [Bool.not_eq_true] at h
      simp [broadcastLoop, h, ih]

theorem broadcastLoop_writes (snap : List (ClientId × Sink))
    (reg : Registry) (env : Frame) (cnt : Nat)
    (ws : List (ClientId × Frame)) (att : List ClientId) :
    (broadcastLoop snap reg env cnt ws att).writes
      = ws ++ (snap.filter (fun p => p.2.writeOk)).map
          (fun p => (p.1, env)) := by
  induction snap generalizing reg cnt ws att with
  | nil => simp [broadcastLoop]
  | cons p rest ih =>
    by_cases h : p.2.writeOk = true
    · simp [broadcastLoop, h, ih]
    · simp only [Bool.not_eq_true] at h
      simp [broadcastLoop, h, ih]

theorem broadcastLoop_retval (snap : List (ClientId × Sink))
    (reg : Registry) (env : Frame) (cnt : Nat)
    (ws : List (ClientId × Frame)) (att : List ClientId) :
    (broadcastLoop snap reg env cnt ws att).retval = none := by
  induction snap generalizing reg cnt ws att with
  | nil => simp [broadcastLoop]
  | cons p rest ih =>
    by_cases h : p.2.writeOk = true
    · simp [broadcastLoop, h, ih]
    · simp only [Bool.not_eq_true] at h
      simp [broadcastLoop, h, ih]

theorem broadcastLoop_registry (snap : List (ClientId × Sink))
    (reg : Registry) (env : Frame) (cnt : Nat)
    (ws : List (ClientId × Frame)) (att : List ClientId) :
    (broadcastLoop snap reg env cnt ws att).registry
      = reg.filter (fun q =>
          !(snap.any (fun p => !p.2.writeOk && p.1 == q.1))) := by
  induction snap generalizing reg cnt ws att with
  | nil => simp [broadcastLoop]
  | cons p rest ih =>
    by_cases h : p.2.writeOk = true
    · simp [broadcastLoop, h, ih]
    · simp only [Bool.not_eq_true] at h
      simp only [broadcastLoop, h, Bool.false_eq_true, if_false, ih,
        mapDelete, List.filter_filter]
      apply List.filter_congr
      intro q _
      simp [h, Bool.not_or]
      rw [Bool.and_comm]
      congr 1
      simp [BEq.comm]

/-- A nodup list all of whose elements equal `x` and which contains `x`
is `[x]`. -/
theorem eq_singleton_of_nodup_forall {α : Type} (l : List α) (x : α)
    (hnd : l.Nodup) (hx : x ∈ l) (hall : ∀ y ∈ l, y = x) : l = [x] := by
  match l with
  | [] => cases hx
  | [a] => rw [hall a (by simp)]
  | a :: b :: t =>
    exfalso
    have ha : a = x := hall a (by simp)
    have hb : b = x := hall b (by simp)
    subst ha; subst hb
    simp at hnd

theorem length_filter_add_length_filter_neg {α : Type} (l : List α)
    (p : α → Bool) :
    (l.filter p).length + (l.filter (fun a => !p a)).length = l.length := by
  induction l with
  | nil => simp
  | cons a t ih =>
    by_cases h : p a = true
    · simp [List.filter_cons, h]; omega
    · simp only [Bool.not_eq_true] at h
      simp [List.filter_cons, h]; omega

/-- With unique keys (the JS `Map` invariant), a broadcast leaves in the
registry exactly the entries whose write succeeded: each failing entry is
deleted, each succeeding one kept. -/
theorem broadcastToClients_registry (reg : Registry) (env : Frame)
    (hnd : (reg.map Prod.fst).Nodup) :
    (broadcastToClients reg env).registry
      = reg.filter (fun p => p.2.writeOk) := by
  rw [broadcastToClients, broadcastLoop_registry]
  apply List.filter_congr
  intro q hq
  by_cases hw : q.2.writeOk = true
  · rw [hw, Bool.not_eq_true', List.any_eq_false]
    intro p hp
    by_cases hk : p.1 = q.1
    · have : p = q := List.inj_on_of_nodup_map hnd hp hq hk
      subst this; simp [hw]
    · simp [hk]
  · simp only [Bool.not_eq_true] at hw
    rw [hw, Bool.not_eq_false', List.any_eq_true]
    exact ⟨q, hq, by simp [hw]⟩

theorem broadcastToClients_sentCount (reg : Registry) (env : Frame) :
    (broadcastToClients reg env).sentCount
      = (reg.filter (fun p => p.2.writeOk)).length := by
  rw [broadcastToClients, broadcastLoop_sentCount]; omega

theorem broadcastToClients_writes (reg : Registry) (env : Frame) :
    (broadcastToClients reg env).writes
      = (reg.filter (fun p => p.2.writeOk)).map (fun p => (p.1, env)) := by
  rw [broadcastToClients, broadcastLoop_writes]; rfl

theorem broadcastToClients_attempted (reg : Registry) (env : Frame) :
    (broadcastToClients reg env).attempted = reg.map Prod.fst := by
  rw [broadcastToClients, broadcastLoop_attempted]; rfl

/-- Under the unique-key invariant, when exactly one registered entry has
a failing sink, the non-failing entries of the registry are exactly
`reg.filter writeOk` and the failing one is the singleton complement. -/
theorem filter_neg_writeOk_singleton (reg : Registry) (fid : ClientId)
    (hnd : (reg.map Prod.fst).Nodup)
    (hf : (fid, Sink.mk false) ∈ reg)
    (ho : ∀ p ∈ reg, p.1 ≠ fid → p.2.writeOk = true) :
    reg.filter (fun p => !p.2.writeOk) = [(fid, Sink.mk false)] := by
  apply eq_singleton_of_nodup_forall
  · exact (List.Nodup.of_map Prod.fst hnd).filter _
  · rw [List.mem_filter]
    exact ⟨hf, by simp⟩
  · intro y hy
    rw [List.mem_filter] at hy
    obtain ⟨hy1, hy2⟩ := hy
    simp only [Bool.not_eq_true'] at hy2
    by_cases hk : y.1 = fid
    · exact List.inj_on_of_nodup_map hnd hy1 hf hk
    · exact absurd (ho y hy1 hk) (by simp [hy2])

/-- A sample notification frame, used for concrete instantiations. -/
def sampleFrame : Frame :=
  Frame.notif ⟨"1", "hello", some "hi", "info", "2024-01-01", "direct"⟩

/-- A three-client registry whose middle sink fails every write. -/
def sampleRegistry : Registry :=
  [("A", Sink.mk true), ("B", Sink.mk false), ("C", Sink.mk true)]

/-- C1: for every registry (with the JS-Map unique-key invariant) and
every envelope, when exactly one registered sink always fails on write,
broadcasting yields N-1 successful deliveries, the failing connection's
id is absent from the registry afterwards, and the write to every other
registered sink still happened. -/
theorem broadcast_removes_failing_and_delivers_rest
    (reg : Registry) (env : Frame) (fid : ClientId)
    (hnd : (reg.map Prod.fst).Nodup)
    (hf : (fid, Sink.mk false) ∈ reg)
    (ho : ∀ p ∈ reg, p.1 ≠ fid → p.2.writeOk = true) :
    (broadcastToClients reg env).sentCount = reg.length - 1
    ∧ fid ∉ (broadcastToClients reg env).registry.map Prod.fst
    ∧ ∀ p ∈ reg, p.1 ≠ fid →
        (p.1, env) ∈ (broadcastToClients reg env).writes := by
  refine ⟨?_, ?_, ?_⟩
  · rw [broadcastToClients_sentCount]
    have h1 := filter_neg_writeOk_singleton reg fid hnd hf ho
    have h2 := length_filter_add_length_filter_neg reg (fun p => p.2.writeOk)
    rw [h1] at h2
    simp only [List.length_singleton] at h2
    omega
  · rw [broadcastToClients_registry reg env hnd]
    intro hmem
    rw [List.mem_map] at hmem
    obtain ⟨p, hp, hpk⟩ := hmem
    rw [List.mem_filter] at hp
    obtain ⟨hp1, hp2⟩ := hp
    have hpe : p = (fid, Sink.mk false) :=
      List.inj_on_of_nodup_map hnd hp1 hf hpk
    rw [hpe] at hp2
    simp at hp2
  · intro p hp hpk
    rw [broadcastToClients_writes, List.mem_map]
    exact ⟨p, List.mem_filter.mpr ⟨hp, ho p hp hpk⟩, rfl⟩

/-- Witness for C1 at a concrete three-client registry whose sink "B"
always fails: 2 deliveries, "B" gone, "A" and "C" written. -/
theorem broadcast_removes_failing_and_delivers_rest_witness :
    (broadcastToClients sampleRegistry sampleFrame).sentCount
        = sampleRegistry.length - 1
    ∧ "B" ∉ (broadcastToClients sampleRegistry sampleFrame).registry.map
        Prod.fst
    ∧ ∀ p ∈ sampleRegistry, p.1 ≠ "B" →
        (p.1, sampleFrame) ∈ (broadcastToClients sampleRegistry
          sampleFrame).writes :=
  broadcast_removes_failing_and_delivers_rest sampleRegistry sampleFrame "B"
    (by decide) (by decide) (by decide)

/-- C2 counterexample: `broadcastToClients` has no `return` statement, so
its value is `undefined` (`none`), never the delivery count.  Here one
client with a succeeding sink gives `sentCount = 1` but return value
`none`. -/
theorem broadcast_retval_counterexample :
    ¬ ((broadcastToClients [("A", Sink.mk true)] sampleFrame).retval
        = some ((broadcastToClients [("A", Sink.mk true)]
            sampleFrame).sentCount)) := by
  decide

/-- C2 amended: `broadcastToClients` computes the count of successful
deliveries in `sentCount` — equal to the number of sinks whose write
succeeded — and logs it, but the function itself returns no value. -/
theorem broadcast_counts_successes_but_returns_nothing
    (reg : Registry) (env : Frame) :
    (broadcastToClients reg env).sentCount
      = (reg.filter (fun p => p.2.writeOk)).length
    ∧ (broadcastToClients reg env).sentCount
      = (broadcastToClients reg env).writes.length
    ∧ (broadcastToClients reg env).retval = none := by
  refine ⟨broadcastToClients_sentCount reg env, ?_, ?_⟩
  · rw [broadcastToClients_sentCount, broadcastToClients_writes,
      List.length_map]
  · rw [broadcastToClients, broadcastLoop_retval]

/-- C3: a broadcast attempts delivery to exactly the connections
registered when it was invoked, in registry order — each once (given the
Map's unique keys) — and this holds for every assignment of sink
behaviours, so the broadcast's own dead-connection deletions never change
which snapshot entries are attempted. -/
theorem broadcast_attempts_exactly_snapshot (reg : Registry) (env : Frame)
    (hnd : (reg.map Prod.fst).Nodup) :
    (broadcastToClients reg env).attempted = reg.map Prod.fst
    ∧ (broadcastToClients reg env).attempted.Nodup := by
  refine ⟨broadcastToClients_attempted reg env, ?_⟩
  rw [broadcastToClients_attempted]
  exact hnd

/-- Witness for C3 at the concrete three-client registry. -/
theorem broadcast_attempts_exactly_snapshot_witness :
    (broadcastToClients sampleRegistry sampleFrame).attempted
        = sampleRegistry.map Prod.fst
    ∧ (broadcastToClients sampleRegistry sampleFrame).attempted.Nodup :=
  broadcast_attempts_exactly_snapshot sampleRegistry sampleFrame (by decide)

/-- A connection registered with an always-failing sink is gone from the
registry after any broadcast (used for C1 and for the contrast half of
C10). -/
theorem failing_absent_after_broadcast (reg : Registry) (env : Frame)
    (cid : ClientId) (hnd : (reg.map Prod.fst).Nodup)
    (hmem : (cid, Sink.mk false) ∈ reg) :
    cid ∉ (broadcastToClients reg env).registry.map Prod.fst := by
  rw [broadcastToClients_registry reg env hnd]
  intro hin
  rw [List.mem_map] at hin
  obtain ⟨p, hp, hpk⟩ := hin
  rw [List.mem_filter] at hp
  obtain ⟨hp1, hp2⟩ := hp
  have hpe : p = (cid, Sink.mk false) :=
    List.inj_on_of_nodup_map hnd hp1 hmem hpk
  rw [hpe] at hp2
  simp at hp2

/-- Projection of a successfully `JSON.parse`d payload to the three
fields the pub/sub adapters read; `none` models an absent field. -/
structure Payload where
  title : Option String
  message : Option String
  type : Option String
  deriving Repr, DecidableEq

/-- One message handed to the pull-subscription listener.  `data = none`
models a payload on which `JSON.parse(message.data.toString())` throws. -/
structure PubSubMessage where
  id : String
  data : Option Payload
  publishTime : String
  deriving Repr, DecidableEq

/-- The notification frame `handlePubSubMessage` builds from a parsed
payload (SETUP.md 251-261). -/
def pullFrame (msg : PubSubMessage) (d : Payload) : Frame :=
  Frame.notif ⟨msg.id, jsOr d.title "通知", d.message, jsOr d.type "info",
    msg.publishTime, "pubsub"⟩

/-- What the pull handler does, in order: a `broadcastToClients` call or
a `message.ack()` call. -/
inductive PullEvent where
  | broadcastEv (env : Frame)
  | ackEv
  deriving Repr, DecidableEq

structure PullResult where
  registry : Registry
  trace : List PullEvent
  deriving Repr, DecidableEq

/-- `handlePubSubMessage` (SETUP.md 246-272): `try` parse the payload,
build the notification, broadcast it, then ack; the `catch` acks too, so
a malformed payload is acknowledged and dropped. -/
def handlePubSubMessage (reg : Registry) (msg : PubSubMessage) :
    PullResult :=
  match msg.data with
  | some d =>
    let env := pullFrame msg d
    ⟨(broadcastToClients reg env).registry,
      [PullEvent.broadcastEv env, PullEvent.ackEv]⟩
  | none => ⟨reg, [PullEvent.ackEv]⟩

/-- The envelopes a pull-handler trace passed to `broadcastToClients`. -/
def tracedBroadcasts (t : List PullEvent) : List Frame :=
  t.filterMap (fun e =>
    match e with
    | PullEvent.broadcastEv f => some f
    | PullEvent.ackEv => none)

/-- The JSON body of `POST /notify`, projected to the destructured
fields. -/
structure NotifyBody where
  title : Option String
  message : Option String
  type : Option String
  deriving Repr, DecidableEq

/-- The `notificationData` object the /notify handler builds. -/
structure NotifyData where
  title : String
  message : String
  type : String
  timestamp : String
  deriving Repr, DecidableEq

structure NotifyResult where
  status : Nat
  registry : Registry
  broadcasts : List Frame
  published : Option NotifyData
  deriving Repr, DecidableEq

/-- `POST /notify` handler (SETUP.md 339-389).  Ambient state and I/O
outcomes appear as parameters: `DEMO_MODE`, whether `topic` is set,
whether `topic.publishMessage` succeeds, and `Date.now()` /
`toISOString()` at handling time.  `published` records the payload passed
to `topic.publishMessage` (also when the publish then fails);
`broadcasts` records the envelopes passed to `broadcastToClients`. -/
def postNotify (demoMode topicConfigured publishOk : Bool)
    (nowId nowTs : String) (reg : Registry) (body : NotifyBody) :
    NotifyResult :=
  if demoMode then ⟨403, reg, [], none⟩
  else if jsFalsy body.message then ⟨400, reg, [], none⟩
  else
    let nd : NotifyData := ⟨jsOr body.title "通知", body.message.getD "",
      body.type.getD "info", nowTs⟩
    if topicConfigured then
      ⟨if publishOk then 200 else 500, reg, [], some nd⟩
    else
      let env := Frame.notif ⟨nowId, nd.title, some nd.message, nd.type,
        nd.timestamp, "direct"⟩
      ⟨200, (broadcastToClients reg env).registry, [env], none⟩

/-- One push-delivered message, `req.body.message`.  `data = none` models
a `message.data` on which base64 decoding or `JSON.parse` throws. -/
structure PushMessage where
  data : Option Payload
  messageId : String
  publishTime : String
  deriving Repr, DecidableEq

/-- The JSON body of `POST /pubsub/push`; `message = none` models a body
whose `message` field is absent (falsy). -/
structure PushBody where
  message : Option PushMessage
  deriving Repr, DecidableEq

/-- The notification frame the push handler builds (SETUP.md 407-417). -/
def pushFrame (pm : PushMessage) (d : Payload) : Frame :=
  Frame.notif ⟨pm.messageId, jsOr d.title "通知", d.message,
    jsOr d.type "info", pm.publishTime, "pubsub-push"⟩

structure PushResult where
  status : Nat
  registry : Registry
  broadcasts : List Frame
  deriving Repr, DecidableEq

/-- `POST /pubsub/push` handler (SETUP.md 392-425): 403 in demo mode,
400 when `req.body.message` is falsy, 500 when decoding throws (the
handler's catch), else broadcast and 200. -/
def postPubsubPush (demoMode : Bool) (reg : Registry) (body : PushBody) :
    PushResult :=
  if demoMode then ⟨403, reg, []⟩
  else
    match body.message with
    | none => ⟨400, reg, []⟩
    | some pm =>
      match pm.data with
      | none => ⟨500, reg, []⟩
      | some d =>
        let env := pushFrame pm d
        ⟨200, (broadcastToClients reg env).registry, [env]⟩

/-- C4 counterexample: the pull adapter accepts the payload
`{"title":"T"}` (it parses, is broadcast and acked), yet the notification
envelope it passes to broadcast has no `message` at all — the claimed
non-empty-body invariant fails. -/
theorem notification_empty_body_counterexample :
    (tracedBroadcasts (handlePubSubMessage []
        ⟨"m1", some ⟨some "T", none, none⟩, "2024-01-01"⟩).trace).all
      hasNonEmptyBody = false := by
  decide

/-- C4 amended: only the direct-publish adapter guarantees a non-empty
body (it validates `message`); the pull and push adapters copy the
payload's `message` field verbatim into the envelope they broadcast, so
that body may be absent or empty. -/
theorem direct_nonempty_body_pull_push_verbatim
    (dm tc pk : Bool) (nowId nowTs : String) (reg : Registry)
    (nb : NotifyBody) (reg2 reg3 : Registry) (msg : PubSubMessage)
    (d d2 : Payload) (pm : PushMessage)
    (hd : msg.data = some d) (hd2 : pm.data = some d2) :
    (postNotify dm tc pk nowId nowTs reg nb).broadcasts.all
        hasNonEmptyBody = true
    ∧ tracedBroadcasts (handlePubSubMessage reg2 msg).trace
        = [pullFrame msg d]
    ∧ frameBody (pullFrame msg d) = d.message
    ∧ (postPubsubPush false reg3 ⟨some pm⟩).broadcasts = [pushFrame pm d2]
    ∧ frameBody (pushFrame pm d2) = d2.message := by
  refine ⟨?_, ?_, rfl, ?_, rfl⟩
  · unfold postNotify
    by_cases h1 : dm = true
    · simp [h1]
    · simp only [Bool.not_eq_true] at h1
      by_cases h2 : jsFalsy nb.message = true
      · simp [h1, h2]
      · simp only [Bool.not_eq_true] at h2
        cases hm : nb.message with
        | none => rw [hm] at h2; simp [jsFalsy] at h2
        | some s =>
          rw [hm] at h2
          simp only [jsFalsy] at h2
          by_cases h3 : tc = true
          · simp [h1, h2, h3, hm, jsFalsy]
          · simp only [Bool.not_eq_true] at h3
            simp [h1, h2, h3, hm, jsFalsy, hasNonEmptyBody]
  · simp [handlePubSubMessage, hd, tracedBroadcasts]
  · simp [postPubsubPush, hd2]

/-- Witness for the amended C4 at concrete inputs: a direct publish of
`{message:"hi"}` with no upstream topic, a pull payload `{"title":"T"}`
(no `message`), and a push payload `{"message":""}`. -/
theorem direct_nonempty_body_pull_push_verbatim_witness :
    (postNotify false false true "7" "ts" [] ⟨none, some "hi", none⟩
        ).broadcasts.all hasNonEmptyBody = true
    ∧ tracedBroadcasts (handlePubSubMessage []
          ⟨"m1", some ⟨some "T", none, none⟩, "t1"⟩).trace
        = [pullFrame ⟨"m1", some ⟨some "T", none, none⟩, "t1"⟩
            ⟨some "T", none, none⟩]
    ∧ frameBody (pullFrame ⟨"m1", some ⟨some "T", none, none⟩, "t1"⟩
          ⟨some "T", none, none⟩) = none
    ∧ (postPubsubPush false [] ⟨some ⟨some ⟨none, some "", none⟩, "m2",
          "t2"⟩⟩).broadcasts
        = [pushFrame ⟨some ⟨none, some "", none⟩, "m2", "t2"⟩
            ⟨none, some "", none⟩]
    ∧ frameBody (pushFrame ⟨some ⟨none, some "", none⟩, "m2", "t2"⟩
          ⟨none, some "", none⟩) = some "" :=
  direct_nonempty_body_pull_push_verbatim false false true "7" "ts" []
    ⟨none, some "hi", none⟩ [] [] ⟨"m1", some ⟨some "T", none, none⟩, "t1"⟩
    ⟨some "T", none, none⟩ ⟨none, some "", none⟩
    ⟨some ⟨none, some "", none⟩, "m2", "t2"⟩ rfl rfl

/-- C5: the pull handler acknowledges every received message — last
traced action is always `ack` — and when the payload parses it broadcasts
the upstream-pull envelope before acking, while a malformed payload is
acked with no broadcast. -/
theorem pull_always_acks (reg : Registry) (msg : PubSubMessage) :
    (handlePubSubMessage reg msg).trace
      = (match msg.data with
         | some d => [PullEvent.broadcastEv (pullFrame msg d),
             PullEvent.ackEv]
         | none => [PullEvent.ackEv])
    ∧ (handlePubSubMessage reg msg).trace.getLast? = some PullEvent.ackEv
      := by
  cases h : msg.data <;> simp [handlePubSubMessage, h]

/-- C6: with `DEMO_MODE` set, both `POST /notify` and
`POST /pubsub/push` answer 403 for every request body, broadcast nothing,
publish nothing and leave the registry untouched. -/
theorem demo_mode_rejects_publish_and_push
    (tc pk : Bool) (nowId nowTs : String) (reg : Registry)
    (nb : NotifyBody) (pb : PushBody) :
    postNotify true tc pk nowId nowTs reg nb
        = ⟨403, reg, [], none⟩
    ∧ postPubsubPush true reg pb = ⟨403, reg, []⟩ := by
  exact ⟨rfl, rfl⟩

/-- C9: with direct publish enabled, a `/notify` body whose `message` is
missing or empty is answered 400 with no broadcast, no publish to the
upstream topic, and an unchanged registry. -/
theorem notify_empty_message_rejected
    (tc pk : Bool) (nowId nowTs : String) (reg : Registry)
    (nb : NotifyBody) (h : jsFalsy nb.message = true) :
    postNotify false tc pk nowId nowTs reg nb = ⟨400, reg, [], none⟩ := by
  simp [postNotify, h]

/-- Witness for C9: an empty `message` string against the three-client
registry. -/
theorem notify_empty_message_rejected_witness :
    jsFalsy (some "") = true
    ∧ postNotify false true true "0" "ts" sampleRegistry
        ⟨some "t", some "", none⟩ = ⟨400, sampleRegistry, [], none⟩ :=
  ⟨by decide, notify_empty_message_rejected true true "0" "ts"
    sampleRegistry ⟨some "t", some "", none⟩ (by decide)⟩

/-- `DEMO_NOTIFICATIONS` (SETUP.md 452-457): title, message, type of each
scripted sample. -/
def DEMO_NOTIFICATIONS : List (String × String × String) :=
  [("田中さん", "お疲れさまです！例の資料、確認できました。ありがとうございます。", "info"),
   ("佐藤さん", "明日のミーティング、15時からでよかったですよね？", "info"),
   ("山田さん", "ランチ行きませんか？新しいカフェができたらしいです", "success"),
   ("鈴木さん", "先ほどの件、確認できました。問題なさそうです！", "success")]

/-- One scheduled demo timer: fires `fireAt` ms after connection open and
writes script entry `index`. -/
structure DemoTask where
  fireAt : Nat
  index : Nat
  deriving Repr, DecidableEq

/-- `sendDemoNotificationsToClient` (SETUP.md 460-481): returns
immediately unless `DEMO_MODE`; otherwise schedules one `setTimeout` per
`DEMO_NOTIFICATIONS` entry, at `3000 + index * 5000` ms. -/
def sendDemoNotificationsToClient (demoMode : Bool) : List DemoTask :=
  if !demoMode then []
  else (List.range DEMO_NOTIFICATIONS.length).map
    (fun i => ⟨3000 + i * 5000, i⟩)

/-- The notification a demo timer for script entry `i` writes when it
fires, with `now` the value of `Date.now()` at fire time (SETUP.md
465-475). -/
def demoNotifData (now : Nat) (i : Nat) : NotificationData :=
  let s := DEMO_NOTIFICATIONS.getD i ("", "", "")
  ⟨"demo_" ++ toString now ++ "_" ++ toString i, s.1, some s.2.1, s.2.2,
    toString now, "demo"⟩

/-- Whether the connection's sink still accepts writes `t` ms after it
opened; `closedAt = none` means it never closes. -/
def sinkOpenAt (closedAt : Option Nat) (t : Nat) : Bool :=
  match closedAt with
  | none => true
  | some c => t < c

/-- Firing one scheduled demo task for a connection opened at absolute
time `openTime` whose sink closes `closedAt` ms later.  The write is
`try { clientRes.write(...) } catch (e) {}` (SETUP.md 476-478), so a
write to a closed sink delivers nothing and lets no error escape.
Returns the delivered notification, if any, and whether an error
escaped. -/
def fireDemoTask (openTime : Nat) (closedAt : Option Nat) (t : DemoTask) :
    Option NotificationData × Bool :=
  if sinkOpenAt closedAt t.fireAt then
    (some (demoNotifData (openTime + t.fireAt) t.index), false)
  else
    (none, false)

/-- Every notification the demo timers deliver to one demo-mode
connection over its lifetime. -/
def demoDeliveries (openTime : Nat) (closedAt : Option Nat) :
    List NotificationData :=
  (sendDemoNotificationsToClient true).filterMap
    (fun t => (fireDemoTask openTime closedAt t).1)

/-- What the `GET /events` handler does, in order. -/
inductive LifeEvent where
  | writeSink (cid : ClientId) (f : Frame)
  | register (cid : ClientId)
  | scheduleWelcome (delayMs : Nat)
  | scheduleDemo (delayMs : Nat) (idx : Nat)
  | broadcastCall (f : Frame)
  deriving Repr, DecidableEq

def isBroadcastCall (e : LifeEvent) : Bool :=
  match e with
  | LifeEvent.broadcastCall _ => true
  | _ => false

/-- The connection-ack frame `GET /events` writes first (SETUP.md
298-304): `type: 'connected'` with the assigned id and the
`pubsubEnabled` / `demoMode` flags. -/
def ackFrame (cid : ClientId) (pubsubEnabled demoMode : Bool) : Frame :=
  Frame.connected cid "接続しました" pubsubEnabled demoMode

/-- The client id `GET /events` assigns: the `clientId` query parameter
when truthy, else `client_` ++ `Date.now()` (SETUP.md 291). -/
def eventsClientId (qcid : Option String) (now : Nat) : ClientId :=
  jsOr qcid ("client_" ++ toString now)

/-- `GET /events` handler (SETUP.md 290-336): write the ack frame to the
new sink, then `clients.set`, then — demo mode only — schedule the
welcome timer (1000 ms) and the demo script.  Returns the new registry
and the ordered trace of the handler's actions. -/
def getEvents (demoMode pubsubEnabled : Bool) (qcid : Option String)
    (now : Nat) (reg : Registry) (sink : Sink) :
    Registry × List LifeEvent :=
  let cid := eventsClientId qcid now
  let ack := ackFrame cid pubsubEnabled demoMode
  let base := [LifeEvent.writeSink cid ack, LifeEvent.register cid]
  if demoMode then
    (mapSet reg cid sink,
      base ++ [LifeEvent.scheduleWelcome 1000]
        ++ (sendDemoNotificationsToClient demoMode).map
            (fun t => LifeEvent.scheduleDemo t.fireAt t.index))
  else
    (mapSet reg cid sink, base)

/-- One private demo write (the welcome or a script entry) to a
connection's sink: `try { res.write(...) } catch (e) {}` with an empty
catch body (SETUP.md 323-325, 476-478).  The callback reads no state
besides the sink and mutates none, in particular not `clients`.  Returns
the registry, whether the frame was delivered, and whether an error
escaped. -/
def demoWriteToClient (reg : Registry) (sinkOk : Bool) (_f : Frame) :
    Registry × Bool × Bool :=
  (reg, sinkOk, false)

/-- C7: the first thing `GET /events` does is write the connection-ack
frame — carrying the assigned id and the `pubsubEnabled` / `demoMode`
flags — directly to the new sink, and only then register the connection;
the handler never calls broadcast, so no broadcast-origin envelope can
reach the connection before its ack. -/
theorem events_ack_first_then_register (dm pe : Bool)
    (qcid : Option String) (now : Nat) (reg : Registry) (sink : Sink) :
    (getEvents dm pe qcid now reg sink).2.take 2
        = [LifeEvent.writeSink (eventsClientId qcid now)
            (ackFrame (eventsClientId qcid now) pe dm),
           LifeEvent.register (eventsClientId qcid now)]
    ∧ (getEvents dm pe qcid now reg sink).2.all
        (fun e => !isBroadcastCall e) = true
    ∧ (getEvents dm pe qcid now reg sink).1
        = mapSet reg (eventsClientId qcid now) sink := by
  cases dm <;>
    simp [getEvents, isBroadcastCall, sendDemoNotificationsToClient,
      DEMO_NOTIFICATIONS]

theorem fireDemoTask_fst (o : Nat) (c : Option Nat) (t : DemoTask) :
    (fireDemoTask o c t).1
      = if sinkOpenAt c t.fireAt then
          some (demoNotifData (o + t.fireAt) t.index)
        else none := by
  unfold fireDemoTask
  by_cases h : sinkOpenAt c t.fireAt = true <;> simp [h]

theorem filterMap_if_eq_map_filter {α β : Type} (p : α → Bool)
    (f : α → β) (l : List α) :
    l.filterMap (fun a => if p a then some (f a) else none)
      = (l.filter p).map f := by
  induction l with
  | nil => rfl
  | cons a t ih =>
    by_cases h : p a = true
    · simp [List.filterMap_cons, List.filter_cons, h, ih]
    · simp only [Bool.not_eq_true] at h
      simp [List.filterMap_cons, List.filter_cons, h, ih]

theorem demoDeliveries_eq (o : Nat) (c : Option Nat) :
    demoDeliveries o c
      = ((sendDemoNotificationsToClient true).filter
            (fun t => sinkOpenAt c t.fireAt)).map
          (fun t => demoNotifData (o + t.fireAt) t.index) := by
  unfold demoDeliveries
  have h : (fun t => (fireDemoTask o c t).1)
      = (fun t => if sinkOpenAt c t.fireAt then
            some (demoNotifData (o + t.fireAt) t.index) else none) :=
    funext (fireDemoTask_fst o c)
  rw [h]
  exact filterMap_if_eq_map_filter _ _ _

/-- Two strings whose underlying character lists end in different
characters are different. -/
theorem string_ne_of_last_ne (s t : String)
    (h : s.data.getLast? ≠ t.data.getLast?) : s ≠ t := by
  intro he
  exact h (by rw [he])

/-- The id of the demo notification for script entry `i` ends in the
decimal digits of `i`, so for `i < 10` the ids of distinct entries differ
whatever `Date.now()` returned at each fire. -/
theorem demoNotifData_id_ne (n1 n2 : Nat) (i j : Nat) (ci cj : Char)
    (hi : (toString i).data.getLast? = some ci)
    (hj : (toString j).data.getLast? = some cj)
    (hcc : ci ≠ cj) :
    (demoNotifData n1 i).id ≠ (demoNotifData n2 j).id := by
  apply string_ne_of_last_ne
  show (("demo_" ++ toString n1 ++ "_") ++ toString i).data.getLast? ≠
    (("demo_" ++ toString n2 ++ "_") ++ toString j).data.getLast?
  simp only [String.data_append, List.getLast?_append, hi, hj]
  intro h
  exact hcc (Option.some.inj (by simpa using h))

/-- Whatever subset of the demo timers fires while the sink is open, the
delivered notifications carry pairwise-distinct ids. -/
theorem demoDeliveries_ids_nodup (o : Nat) (c : Option Nat) :
    ((demoDeliveries o c).map (fun d => d.id)).Nodup := by
  have hsub : ((demoDeliveries o c).map (fun d => d.id)).Sublist
      ((sendDemoNotificationsToClient true).map
        (fun t => (demoNotifData (o + t.fireAt) t.index).id)) := by
    rw [demoDeliveries_eq, List.map_map]
    exact (List.filter_sublist _).map _
  apply List.Nodup.sublist hsub
  have hts : sendDemoNotificationsToClient true
      = [⟨3000, 0⟩, ⟨8000, 1⟩, ⟨13000, 2⟩, ⟨18000, 3⟩] := by rfl
  rw [hts]
  simp only [List.map_cons, List.map_nil, List.nodup_cons,
    List.mem_singleton, List.mem_cons, List.not_mem_nil, or_false,
    not_or, List.nodup_nil, and_true]
  refine ⟨⟨?_, ?_, ?_⟩, ⟨?_, ?_⟩, ?_⟩
  · exact demoNotifData_id_ne _ _ 0 1 '0' '1' rfl rfl (by decide)
  · exact demoNotifData_id_ne _ _ 0 2 '0' '2' rfl rfl (by decide)
  · exact demoNotifData_id_ne _ _ 0 3 '0' '3' rfl rfl (by decide)
  · exact demoNotifData_id_ne _ _ 1 2 '1' '2' rfl rfl (by decide)
  · exact demoNotifData_id_ne _ _ 1 3 '1' '3' rfl rfl (by decide)
  · exact ⟨demoNotifData_id_ne _ _ 2 3 '2' '3' rfl rfl (by decide),
      not_false⟩

/-- C8: the demo generator schedules exactly one timer per script entry;
a connection that never closes receives exactly `len(script)`
notifications; whatever the close time, the delivered notifications have
pairwise-distinct ids; and a timer that fires after the sink closed
delivers nothing and lets no error escape. -/
theorem demo_script_each_once_and_safe_after_close
    (openTime : Nat) (closedAt : Option Nat) :
    (sendDemoNotificationsToClient true).length
        = DEMO_NOTIFICATIONS.length
    ∧ (demoDeliveries openTime none).length = DEMO_NOTIFICATIONS.length
    ∧ ((demoDeliveries openTime closedAt).map (fun d => d.id)).Nodup
    ∧ demoDeliveries openTime closedAt
        = ((sendDemoNotificationsToClient true).filter
              (fun t => sinkOpenAt closedAt t.fireAt)).map
            (fun t => demoNotifData (openTime + t.fireAt) t.index)
    ∧ (∀ t ∈ sendDemoNotificationsToClient true,
        sinkOpenAt closedAt t.fireAt = false →
          fireDemoTask openTime closedAt t = (none, false)) := by
  refine ⟨?_, ?_, demoDeliveries_ids_nodup openTime closedAt,
    demoDeliveries_eq openTime closedAt, ?_⟩
  · decide
  · rw [demoDeliveries_eq]
    simp only [sinkOpenAt, List.filter_true, List.length_map]
    decide
  · intro t _ hclosed
    unfold fireDemoTask
    rw [hclosed]
    simp

/-- Witness for C8 at a connection that closes 4000 ms after open: only
the first timer (3000 ms) fires while the sink is open, so exactly one
notification is delivered. -/
theorem demo_script_each_once_and_safe_after_close_witness :
    (demoDeliveries 0 (some 4000)).length = 1
    ∧ ((sendDemoNotificationsToClient true).length
          = DEMO_NOTIFICATIONS.length
      ∧ (demoDeliveries 0 none).length = DEMO_NOTIFICATIONS.length
      ∧ ((demoDeliveries 0 (some 4000)).map (fun d => d.id)).Nodup
      ∧ demoDeliveries 0 (some 4000)
          = ((sendDemoNotificationsToClient true).filter
                (fun t => sinkOpenAt (some 4000) t.fireAt)).map
              (fun t => demoNotifData (0 + t.fireAt) t.index)
      ∧ (∀ t ∈ sendDemoNotificationsToClient true,
          sinkOpenAt (some 4000) t.fireAt = false →
            fireDemoTask 0 (some 4000) t = (none, false))) :=
  ⟨by decide, demo_script_each_once_and_safe_after_close 0 (some 4000)⟩

/-- C10: a failed private, connection-scoped write (demo welcome or demo
script entry) is swallowed — no error escapes, nothing is delivered, the
registry is untouched — whereas a broadcast write failure removes the
failing connection from the registry. -/
theorem private_write_failure_keeps_registry
    (reg : Registry) (f env : Frame) (cid : ClientId)
    (hnd : (reg.map Prod.fst).Nodup)
    (hmem : (cid, Sink.mk false) ∈ reg) :
    (demoWriteToClient reg false f).1 = reg
    ∧ (demoWriteToClient reg false f).2.1 = false
    ∧ (demoWriteToClient reg false f).2.2 = false
    ∧ cid ∉ (broadcastToClients reg env).registry.map Prod.fst :=
  ⟨rfl, rfl, rfl, failing_absent_after_broadcast reg env cid hnd hmem⟩

/-- Witness for C10 at the three-client registry whose sink "B" fails. -/
theorem private_write_failure_keeps_registry_witness :
    (demoWriteToClient sampleRegistry false sampleFrame).1
        = sampleRegistry
    ∧ (demoWriteToClient sampleRegistry false sampleFrame).2.1 = false
    ∧ (demoWriteToClient sampleRegistry false sampleFrame).2.2 = false
    ∧ "B" ∉ (broadcastToClients sampleRegistry sampleFrame).registry.map
        Prod.fst :=
  private_write_failure_keeps_registry sampleRegistry sampleFrame
    sampleFrame "B" (by decide) (by decide)




